import Mathlib

/-!
Verification of the alabos scheduling and resource-allocation engine.

This file gives a shallow embedding of the core components of the
repository (`galactus_core/resource/resource_manager.py`,
`galactus_core/scheduler/scheduler.py`,
`galactus_core/scheduler/task_executor.py`, `galactus_core/models/job.py`)
and proves properties of that embedding.

Modelling conventions:
* UUIDs and timestamps are modelled as `Nat` (the code only compares
  them for equality / stores them); `datetime.utcnow()` becomes an
  explicit `now : Nat` parameter where a timestamp is written.
* Python dicts keyed by id are modelled as lists in insertion order
  (Python dicts preserve insertion order); `d[k] = v` either overwrites
  the entry with the same key or appends.
* The SQLAlchemy session is modelled by explicit lists of rows
  (`List Device`, `List ETask`, ...); `query(...).filter(...)` becomes
  `List.filter` in row order, `.first()` becomes `List.find?`.
* Exceptions that a function catches internally are modelled by
  `Option`: `_find_available_resources` catches every exception it
  raises (including `ResourceConflict`) and returns `None`, so it is a
  total function into `Option`.
* Events published on the event bus are modelled as an append-only log
  of `(task_id, event_type)` pairs.
-/

/-- `DeviceStatus` values from `models/device.py`. -/
inductive DStatus where
  | offline
  | online
  | busy
  | maintenance
  | err
  | unknown
deriving DecidableEq, Repr

/-- A `Device` row (`models/device.py`), restricted to the columns the
scheduler/resource code reads or writes.  A sample-position JSON dict is
modelled by its optional `"name"` entry. -/
structure Device where
  id : Nat
  device_type_id : Nat
  status : DStatus
  is_available : Bool
  current_task_id : Option Nat := none
  sample_positions : List (Option String) := []
deriving DecidableEq, Repr

/-- `position.get("name", "")` from `ResourceManager._get_available_sample_positions`. -/
def posName (p : Option String) : String := p.getD ""

/-- `Device.is_online` from `models/device.py`:
`self.status == DeviceStatus.ONLINE and self.is_available`. -/
def Device.is_online (d : Device) : Bool :=
  d.status == DStatus.online && d.is_available

/-- `ResourceRequest` from `resource_manager.py`. -/
structure ResourceRequest where
  task_id : Nat
  required_device_types : List Nat
  sample_count : Nat := 0
deriving DecidableEq, Repr

/-- `ResourceAllocation` from `resource_manager.py`. -/
structure ResourceAllocation where
  device_id : Nat
  task_id : Nat
  sample_positions : List String
deriving DecidableEq, Repr

/-- The mutable state of a `ResourceManager` instance.
`active_allocations : dict[UUID, ResourceAllocation]` is modelled as the
list of its values in insertion order (the key of an entry is its
`device_id` field, exactly as the code maintains it);
`sample_position_availability : dict[str, datetime]` is modelled by its
key list (the stored datetime value is never read by any control
decision, only key membership is tested); `device_availability` is
initialised and never used, so it is omitted. -/
structure RMState where
  active_allocations : List ResourceAllocation
  sample_position_availability : List String
  pending_requests : List ResourceRequest
deriving DecidableEq, Repr

/-- `ResourceManager.__init__`: all tables empty. -/
def initialRM : RMState := ⟨[], [], []⟩

/-- `device_id in self.active_allocations` (dict key membership). -/
def activeKey (st : RMState) (d : Nat) : Bool :=
  st.active_allocations.any (fun a => a.device_id == d)

/-- `self.active_allocations[allocation.device_id] = allocation`:
overwrite the entry with the same key if present, otherwise append. -/
def allocInsert (l : List ResourceAllocation) (a : ResourceAllocation) :
    List ResourceAllocation :=
  if l.any (fun b => b.device_id == a.device_id) then
    l.map (fun b => if b.device_id == a.device_id then a else b)
  else
    l ++ [a]

/-- `self.sample_position_availability[position] = ...`: dict key set
(only key membership matters, see `RMState`). -/
def spaInsert (l : List String) (p : String) : List String :=
  if p ∈ l then l else l ++ [p]

/-- `ResourceManager._get_available_devices`: devices whose type is in
`required_device_types`, whose status is `ONLINE` and which are
available, in store row order (the dict built from them is keyed by the
unique primary key `id`, so it is just this list). -/
def availableDevices (required : List Nat) (devices : List Device) : List Device :=
  devices.filter (fun d =>
    decide (d.device_type_id ∈ required) && (d.status == DStatus.online) && d.is_available)

/-- `ResourceManager._get_available_sample_positions`: the names of the
device's sample positions that are not currently reserved, truncated to
`count`. -/
def availPositions (st : RMState) (count : Nat) (d : Device) : List String :=
  if d.sample_positions.isEmpty then []
  else
    ((d.sample_positions.map posName).filter
      (fun n => !(decide (n ∈ st.sample_position_availability)))).take count

/-- The non-conflicting candidates of `_find_available_resources`:
available devices not already present in the active-allocation table. -/
def nonConfDevices (devices : List Device) (r : ResourceRequest) (st : RMState) :
    List Device :=
  (availableDevices r.required_device_types devices).filter
    (fun d => !(activeKey st d.id))

/-- The per-device loop of `_find_available_resources`: for each selected
device compute its available positions and fail (raise `ResourceConflict`,
which the caller's own handler turns into `None`) if a device has fewer
free positions than `count`. -/
def allocDevices (st : RMState) (count : Nat) : List Device → Option (List (Nat × List String))
  | [] => some []
  | d :: ds =>
    let pos := availPositions st count d
    if pos.length < count then none
    else
      match allocDevices st count ds with
      | none => none
      | some rest => some ((d.id, pos) :: rest)

/-- `ResourceManager._find_available_resources`.  All exceptions raised in
its body (the two `ResourceConflict`s and the `IndexError` on
`device_allocations[0]` when the selection is empty) are caught by its
own `except Exception` handler, which returns `None`; hence the result
type is `Option`. -/
def findAvailable (devices : List Device) (r : ResourceRequest) (st : RMState) :
    Option ResourceAllocation :=
  let avail := availableDevices r.required_device_types devices
  if avail.isEmpty then none
  else
    let nonConf := nonConfDevices devices r st
    if nonConf.isEmpty then none
    else
      match allocDevices st r.sample_count (nonConf.take r.required_device_types.length) with
      | none => none
      | some [] => none
      | some (da :: das) =>
          some ⟨da.1, r.task_id, ((da :: das).map Prod.snd).flatten⟩

/-- `ResourceManager._allocate_resources`: record the allocation under its
device id and reserve each of its sample positions. -/
def allocateRes (a : ResourceAllocation) (st : RMState) : RMState :=
  { st with
    active_allocations := allocInsert st.active_allocations a,
    sample_position_availability :=
      a.sample_positions.foldl spaInsert st.sample_position_availability }

/-- `ResourceManager.request_resources`: allocate if possible, otherwise
append the request to the FIFO backlog and return `None` (both the
"no candidate" path and the caught `ResourceConflict` path queue). -/
def requestResources (devices : List Device) (r : ResourceRequest) (st : RMState) :
    Option ResourceAllocation × RMState :=
  match findAvailable devices r st with
  | some a => (some a, allocateRes a st)
  | none => (none, { st with pending_requests := st.pending_requests ++ [r] })

/-- The loop of `ResourceManager._process_pending_requests`: requests are
retried in FIFO order against the evolving state; fulfilled requests are
allocated, the rest are collected (in order) as the new backlog. -/
def processGo (devices : List Device) :
    List ResourceRequest → RMState → List ResourceRequest → RMState
  | [], st, remaining => { st with pending_requests := remaining }
  | r :: rest, st, remaining =>
    match findAvailable devices r st with
    | some a => processGo devices rest (allocateRes a st) remaining
    | none => processGo devices rest st (remaining ++ [r])

/-- `ResourceManager._process_pending_requests`. -/
def processPending (devices : List Device) (st : RMState) : RMState :=
  processGo devices st.pending_requests st []

/-- The state right after `release_resources` has freed allocation `a` of
device `d`: the allocation's positions are deleted from the availability
table and the allocation is removed. -/
def freedState (st : RMState) (d : Nat) (a : ResourceAllocation) : RMState :=
  { active_allocations := st.active_allocations.filter (fun b => !(b.device_id == d)),
    sample_position_availability :=
      st.sample_position_availability.filter (fun p => !(decide (p ∈ a.sample_positions))),
    pending_requests := st.pending_requests }

/-- `ResourceManager.release_resources`: if the device has an active
allocation, free its positions, drop the allocation and synchronously
reprocess the backlog; otherwise do nothing. -/
def releaseResources (devices : List Device) (d : Nat) (st : RMState) : RMState :=
  match st.active_allocations.find? (fun a => a.device_id == d) with
  | none => st
  | some a => processPending devices (freedState st d a)

/-- Mutual exclusion between two allocations: distinct device ids and
disjoint sample-position name sets. -/
def AllocDisj (a b : ResourceAllocation) : Prop :=
  a.device_id ≠ b.device_id ∧ a.sample_positions.Disjoint b.sample_positions

/-- The resource-manager invariant: active allocations are pairwise
mutually exclusive, and every position of an active allocation is
present in the availability (reservation) table. -/
def RMInv (st : RMState) : Prop :=
  st.active_allocations.Pairwise AllocDisj ∧
  ∀ a ∈ st.active_allocations, ∀ p ∈ a.sample_positions,
    p ∈ st.sample_position_availability

/-- `TaskStatus` values from `models/task.py`. -/
inductive TStatus where
  | pending
  | ready
  | running
  | completed
  | failed
  | cancelled
  | retrying
deriving DecidableEq, Repr

/-- A task template, restricted to the column the scheduler reads. -/
structure TaskTemplate where
  required_device_types : List Nat
deriving DecidableEq, Repr

/-- A `Task` row as seen by `scheduler.py`. -/
structure SchedTask where
  id : Nat
  status : TStatus
  assigned_device_id : Option Nat := none
  task_template : Option TaskTemplate := none
  started_at : Option Nat := none
deriving DecidableEq, Repr

/-- `ResourceAllocation` from `scheduler.py` (the scheduler's own class,
distinct from the resource manager's). -/
structure SchedAlloc where
  device_id : Nat
  sample_positions : List String := []
deriving DecidableEq, Repr

/-- The world `ResourceScheduler` operates on: the task and device tables
of the store, its in-memory `active_allocations` dict (modelled as in
`RMState`) and the log of published events. -/
structure SchedState where
  tasks : List SchedTask
  devices : List Device
  active_allocations : List SchedAlloc
  events : List (Nat × String)
deriving DecidableEq, Repr

/-- `device.id in self.active_allocations` in `scheduler.py`. -/
def schedActiveKey (st : SchedState) (d : Nat) : Bool :=
  st.active_allocations.any (fun a => a.device_id == d)

/-- `self.active_allocations[device.id] = allocation` in `scheduler.py`. -/
def schedAllocInsert (l : List SchedAlloc) (a : SchedAlloc) : List SchedAlloc :=
  if l.any (fun b => b.device_id == a.device_id) then
    l.map (fun b => if b.device_id == a.device_id then a else b)
  else
    l ++ [a]

/-- Replace the first element satisfying `p` (the ORM mutates the single
row object returned by `.first()`; ids are primary keys). -/
def setFirst (p : α → Bool) (x : α) : List α → List α
  | [] => []
  | y :: ys => if p y then x :: ys else y :: setFirst p x ys

/-- The device count queried by `_check_resource_availability`: devices of
the required types that are `ONLINE` and available.  Note the query does
not exclude devices already present in `active_allocations`. -/
def onlineAvailCount (st : SchedState) (required : List Nat) : Nat :=
  (st.devices.filter (fun d =>
    decide (d.device_type_id ∈ required) && (d.status == DStatus.online) && d.is_available)).length

/-- `ResourceScheduler._check_resource_availability` (step 3 of
`can_task_run`).  The reason strings mirror the code's messages with the
interpolated ids omitted. -/
def checkResourceAvailability (st : SchedState) (task : SchedTask) : Bool × String :=
  match task.task_template with
  | none => (false, "Task template not found")
  | some template =>
    let required := template.required_device_types
    if !required.isEmpty && decide (onlineAvailCount st required < required.length) then
      (false, "Insufficient devices available")
    else
      match task.assigned_device_id with
      | none => (true, "Resources available")
      | some did =>
        match st.devices.find? (fun d => d.id == did) with
        | none => (false, "Assigned device is not available")
        | some dev =>
          if !dev.is_online then (false, "Assigned device is not available")
          else if schedActiveKey st did then (false, "Device is already allocated")
          else (true, "Resources available")

/-- The resource-availability check as the specification's step 3 words
it (written from the spec sentence, for comparison with
`checkResourceAvailability`): if the task has an assigned device, that
exact device must exist, be online and available, and not be actively
allocated; otherwise the required device types must have at least as
many online, available, non-conflicting devices as types requested. -/
def specResourceCheck (st : SchedState) (task : SchedTask) : Bool :=
  match task.assigned_device_id with
  | some did =>
    match st.devices.find? (fun d => d.id == did) with
    | none => false
    | some dev => dev.is_online && !(schedActiveKey st did)
  | none =>
    match task.task_template with
    | none => false
    | some template =>
      let required := template.required_device_types
      let nonConflicting := st.devices.filter (fun d =>
        decide (d.device_type_id ∈ required) && d.is_online && !(schedActiveKey st d.id))
      decide (required.length ≤ nonConflicting.length)

/-- The resource-availability check that `checkResourceAvailability`
actually implements, written as one conjunction: the template must
exist; when the required-type list is non-empty, the count of online,
available devices of those types (allocated or not) must reach the
number of required types; and additionally — not alternatively — when
the task has an assigned device, that device must exist, be online and
available, and not be actively allocated. -/
def amendedResourceCheck (st : SchedState) (task : SchedTask) : Bool :=
  match task.task_template with
  | none => false
  | some template =>
    let required := template.required_device_types
    (required.isEmpty || decide (required.length ≤ onlineAvailCount st required)) &&
      (match task.assigned_device_id with
       | none => true
       | some did =>
         match st.devices.find? (fun d => d.id == did) with
         | none => false
         | some dev => dev.is_online && !(schedActiveKey st did))

/-- `ResourceScheduler.allocate_resources`: only a task with an assigned,
existing device is allocated; on success the device is marked busy, the
task running, and a `task.started` event is published. -/
def allocateResources (now : Nat) (tid : Nat) (st : SchedState) : Bool × SchedState :=
  match st.tasks.find? (fun t => t.id == tid) with
  | none => (false, st)
  | some task =>
    match task.assigned_device_id with
    | none => (false, st)
    | some did =>
      match st.devices.find? (fun d => d.id == did) with
      | none => (false, st)
      | some dev =>
        (true,
          { st with
            active_allocations := schedAllocInsert st.active_allocations ⟨dev.id, []⟩,
            devices := setFirst (fun d => d.id == did)
              { dev with status := DStatus.busy, current_task_id := some tid } st.devices,
            tasks := setFirst (fun t => t.id == tid)
              { task with status := TStatus.running, started_at := some now } st.tasks,
            events := st.events ++ [(tid, "started")] })

/-- One task's slice of `run_scheduler_loop`: after `can_task_run`, a
positive decision calls `allocate_resources`; a negative decision leaves
everything untouched.  The decision is passed as a parameter. -/
def schedulerStepTask (now : Nat) (decision : Bool) (tid : Nat) (st : SchedState) : SchedState :=
  if decision then (allocateResources now tid st).2 else st

/-- `JobStatus` values from `models/job.py`. -/
inductive JStatus where
  | created
  | queued
  | running
  | completed
  | failed
  | cancelled
  | paused
deriving DecidableEq, Repr

/-- A `Job` row (`models/job.py`), restricted to the columns the progress
formula and the executor read or write. -/
structure Job where
  id : Nat
  status : JStatus
  progress_percentage : Nat := 0
  total_tasks : Nat := 0
  completed_tasks : Nat := 0
  failed_tasks : Nat := 0
  cancelled_tasks : Nat := 0
  completed_at : Option Nat := none
deriving DecidableEq, Repr

/-- `Job.is_completed`: `self.status in [COMPLETED, FAILED, CANCELLED]`. -/
def Job.is_completed (j : Job) : Bool :=
  decide (j.status ∈ [JStatus.completed, JStatus.failed, JStatus.cancelled])

/-- `Job.calculate_progress` from `models/job.py` (`//` is integer
division on the non-negative counters). -/
def Job.calculate_progress (j : Job) : Nat :=
  if j.total_tasks = 0 then (if j.is_completed then 100 else 0)
  else
    let completed_progress := j.completed_tasks * 100
    let failed_progress := j.failed_tasks * 50
    let cancelled_progress := j.cancelled_tasks * 25
    min 100 ((completed_progress + failed_progress + cancelled_progress) / j.total_tasks)

/-- A task-implementation result payload `{status, outputs,
execution_time, error_message, ...}`; absent keys are `none`
(`result.get(...)` supplies the defaults). -/
structure TaskResult where
  status : String
  outputs : Option (List (String × String)) := none
  execution_time : Option Nat := none
  error_message : Option String := none
deriving DecidableEq, Repr

/-- A `Task` row as read and written by `task_executor.py`. -/
structure ETask where
  id : Nat
  job_id : Nat
  status : TStatus
  started_at : Option Nat := none
  completed_at : Option Nat := none
  outputs : List (String × String) := []
  execution_time : Option Nat := none
  result_data : Option TaskResult := none
  error_message : Option String := none
deriving DecidableEq, Repr

/-- The world `TaskExecutor` operates on: the task and job tables, the
log of published events, and the list of device releases scheduled
through `asyncio.create_task` (scheduled, not yet executed). -/
structure ExecWorld where
  tasks : List ETask
  jobs : List Job
  events : List (Nat × String)
  scheduled_releases : List Nat
deriving DecidableEq, Repr

/-- `int((completed_tasks / total_tasks) * 100) if total_tasks > 0 else
100` — the float arithmetic is modelled as exact real arithmetic, whose
truncation is `c * 100 / t` on naturals. -/
def progressPct (c t : Nat) : Nat := if 0 < t then c * 100 / t else 100

/-- The task-row update performed by `_process_task_result`: status from
the result status, `completed_at` stamped, outputs/execution
time/result payload stored, and on a non-"completed" result the error
message set from the result (default `"Task failed"`). -/
def postTask (now : Nat) (result : TaskResult) (t : ETask) : ETask :=
  { t with
    status := if result.status == "completed" then TStatus.completed else TStatus.failed,
    completed_at := some now,
    outputs := result.outputs.getD [],
    execution_time := result.execution_time,
    result_data := some result,
    error_message :=
      if result.status == "completed" then t.error_message
      else some (result.error_message.getD "Task failed") }

/-- `session.query(Task).filter(Task.job_id == job.id).count()`. -/
def siblingTotal (rows : List ETask) (jid : Nat) : Nat :=
  (rows.filter (fun t => t.job_id == jid)).length

/-- `session.query(Task).filter(Task.job_id == job.id, Task.status ==
TaskStatus.COMPLETED).count()`. -/
def siblingCompleted (rows : List ETask) (jid : Nat) : Nat :=
  (rows.filter (fun t => t.job_id == jid && t.status == TStatus.completed)).length

/-- `TaskExecutor._process_task_result`: update the task row, then (if
the owning job exists) recount the job's sibling tasks — `total` is all
siblings, `comp` only the `COMPLETED` ones — set `completed_tasks` and
`progress_percentage` from those counts, mark the job completed exactly
when `comp == total`, and finally publish a `completed`/`failed` event. -/
def processTaskResult (now : Nat) (tid : Nat) (result : TaskResult) (w : ExecWorld) :
    Bool × ExecWorld :=
  match w.tasks.find? (fun t => t.id == tid) with
  | none => (false, w)
  | some task =>
    let task1 := postTask now result task
    let tasks1 := setFirst (fun t => t.id == tid) task1 w.tasks
    let eventType : String :=
      if task1.status == TStatus.completed then "completed" else "failed"
    match w.jobs.find? (fun j => j.id == task.job_id) with
    | none => (true, { w with tasks := tasks1, events := w.events ++ [(tid, eventType)] })
    | some job =>
      let total := siblingTotal tasks1 job.id
      let comp := siblingCompleted tasks1 job.id
      let job1 := { job with
        completed_tasks := comp,
        progress_percentage := progressPct comp total }
      let job2 :=
        if comp == total then
          { job1 with status := JStatus.completed, completed_at := some now }
        else job1
      (true,
        { w with
          tasks := tasks1,
          jobs := setFirst (fun j => j.id == task.job_id) job2 w.jobs,
          events := w.events ++ [(tid, eventType)] })

/-- `TaskExecutor.cancel_task`: only a `RUNNING` task is cancelled; its
row gets status `CANCELLED` and a `completed_at` stamp, a device release
is scheduled asynchronously, and a `cancelled` event is published.  No
job row is touched. -/
def cancelTask (now : Nat) (tid : Nat) (w : ExecWorld) : Bool × ExecWorld :=
  match w.tasks.find? (fun t => t.id == tid) with
  | none => (false, w)
  | some task =>
    if task.status == TStatus.running then
      (true,
        { w with
          tasks := setFirst (fun t => t.id == tid)
            { task with status := TStatus.cancelled, completed_at := some now } w.tasks,
          scheduled_releases := w.scheduled_releases ++ [tid],
          events := w.events ++ [(tid, "cancelled")] })
    else (false, w)

/-- States reachable from a fresh `ResourceManager` by its operations
(each call may see an arbitrary device table, since the store can change
between calls). -/
inductive RMReachable : RMState → Prop where
  | init : RMReachable initialRM
  | request (devices : List Device) (r : ResourceRequest) {st : RMState} :
      RMReachable st → RMReachable (requestResources devices r st).2
  | release (devices : List Device) (d : Nat) {st : RMState} :
      RMReachable st → RMReachable (releaseResources devices d st)
  | reprocess (devices : List Device) {st : RMState} :
      RMReachable st → RMReachable (processPending devices st)

/-! Concrete fixtures used to instantiate the theorems below. -/

/-- A store with one online, available device of type 1 exposing two
named sample positions. -/
def demoDevices : List Device :=
  [{ id := 1, device_type_id := 1, status := DStatus.online, is_available := true,
     sample_positions := [some "p1", some "p2"] }]

/-- A request for one device of type 1 with one sample. -/
def demoReq : ResourceRequest :=
  { task_id := 10, required_device_types := [1], sample_count := 1 }

/-- A resource-manager state in which device 1 is allocated to task 10
holding position `p1`, and task 11's request waits in the backlog. -/
def c2State : RMState :=
  { active_allocations := [{ device_id := 1, task_id := 10, sample_positions := ["p1"] }],
    sample_position_availability := ["p1"],
    pending_requests := [{ task_id := 11, required_device_types := [1], sample_count := 1 }] }

/-- A scheduler state with one online available device of type 1 that is
already actively allocated. -/
def c5State : SchedState :=
  { tasks := [],
    devices := [{ id := 1, device_type_id := 1, status := DStatus.online, is_available := true }],
    active_allocations := [{ device_id := 1 }],
    events := [] }

/-- A task with no assigned device whose template requires one device of
type 1. -/
def c5Task : SchedTask :=
  { id := 5, status := TStatus.pending, task_template := some { required_device_types := [1] } }

/-- A scheduler state holding one ready task (id 7) with no assigned
device, plus an online device. -/
def c9State : SchedState :=
  { tasks := [{ id := 7, status := TStatus.ready }],
    devices := [{ id := 1, device_type_id := 1, status := DStatus.online, is_available := true }],
    active_allocations := [],
    events := [] }

/-- An executor world for claim C4: job 1 owns task 1 (already `FAILED`)
and task 2 (`RUNNING`). -/
def c4World : ExecWorld :=
  { tasks := [{ id := 1, job_id := 1, status := TStatus.failed },
              { id := 2, job_id := 1, status := TStatus.running }],
    jobs := [{ id := 1, status := JStatus.running, total_tasks := 2, failed_tasks := 1 }],
    events := [],
    scheduled_releases := [] }

/-- A successful implementation result. -/
def c4Result : TaskResult := { status := "completed" }

/-- An executor world in which job 4's single task 9 is running, so a
successful result completes the whole job. -/
def c4GoodWorld : ExecWorld :=
  { tasks := [{ id := 9, job_id := 4, status := TStatus.running }],
    jobs := [{ id := 4, status := JStatus.running, total_tasks := 1 }],
    events := [],
    scheduled_releases := [] }

/-- An executor world for claim C8: job 1 owns the single running task 3
and has `failed_tasks = 0`. -/
def c8World : ExecWorld :=
  { tasks := [{ id := 3, job_id := 1, status := TStatus.running }],
    jobs := [{ id := 1, status := JStatus.running, total_tasks := 1 }],
    events := [],
    scheduled_releases := [] }

/-- A failing implementation result that carries an explicitly empty
error message. -/
def c8Result : TaskResult := { status := "error", error_message := some "" }

/-- An executor world for claim C10: job 2 owns the single running task 4. -/
def c10World : ExecWorld :=
  { tasks := [{ id := 4, job_id := 2, status := TStatus.running }],
    jobs := [{ id := 2, status := JStatus.running, total_tasks := 1, cancelled_tasks := 0,
               progress_percentage := 0 }],
    events := [],
    scheduled_releases := [] }

/-! ## Theorems -/

/-- Claim C3: for every job, `calculate_progress` returns 100 if
`total_tasks` is 0 and the job is in a terminal status (completed,
failed or cancelled), 0 if `total_tasks` is 0 and the job is not
terminal, and otherwise
`min 100 ((completed*100 + failed*50 + cancelled*25) / total)`. -/
theorem c3_calculate_progress (j : Job) :
    j.calculate_progress =
      if j.total_tasks = 0 then
        (if j.status = JStatus.completed ∨ j.status = JStatus.failed ∨
            j.status = JStatus.cancelled then 100 else 0)
      else
        min 100 ((j.completed_tasks * 100 + j.failed_tasks * 50 +
          j.cancelled_tasks * 25) / j.total_tasks) := by
  unfold Job.calculate_progress Job.is_completed
  simp [List.mem_cons]

/-- Claim C7: releasing a device with no active allocation is a no-op:
no error is raised and the state (allocations, position availability,
backlog) is returned unchanged. -/
theorem c7_idempotent_release (devices : List Device) (d : Nat) (st : RMState)
    (h : activeKey st d = false) :
    releaseResources devices d st = st := by
  have hfind : st.active_allocations.find? (fun a => a.device_id == d) = none := by
    rw [List.find?_eq_none]
    intro a ha
    simp only [activeKey, List.any_eq_false] at h
    simpa using h a ha
  unfold releaseResources
  rw [hfind]

/-- Witness for C7 at a concrete unallocated device. -/
theorem c7_witness : releaseResources demoDevices 1 initialRM = initialRM :=
  c7_idempotent_release demoDevices 1 initialRM (by decide)

/-- Claim C10: cancelling a running task changes only that task's row
(status to cancelled, `completed_at` stamped) and appends a scheduled
device release and a `cancelled` event; in particular the job table —
including the owning job's `cancelled_tasks` counter and
`progress_percentage` — is left unchanged. -/
theorem c10_cancel_frame (now tid : Nat) (w : ExecWorld) (task : ETask)
    (ht : w.tasks.find? (fun t => t.id == tid) = some task)
    (hr : task.status = TStatus.running) :
    cancelTask now tid w =
      (true,
        { w with
          tasks := setFirst (fun t => t.id == tid)
            { task with status := TStatus.cancelled, completed_at := some now } w.tasks,
          scheduled_releases := w.scheduled_releases ++ [tid],
          events := w.events ++ [(tid, "cancelled")] }) ∧
    (cancelTask now tid w).2.jobs = w.jobs := by
  have h1 : cancelTask now tid w =
      (true,
        { w with
          tasks := setFirst (fun t => t.id == tid)
            { task with status := TStatus.cancelled, completed_at := some now } w.tasks,
          scheduled_releases := w.scheduled_releases ++ [tid],
          events := w.events ++ [(tid, "cancelled")] }) := by
    unfold cancelTask
    rw [ht]
    simp [hr]
  exact ⟨h1, by rw [h1]⟩

/-- Witness for C10 on a concrete world. -/
theorem c10_witness :
    cancelTask 7 4 c10World =
      (true,
        { c10World with
          tasks := setFirst (fun t => t.id == 4)
            { id := 4, job_id := 2, status := TStatus.cancelled, completed_at := some 7 }
            c10World.tasks,
          scheduled_releases := c10World.scheduled_releases ++ [4],
          events := c10World.events ++ [(4, "cancelled")] }) ∧
    (cancelTask 7 4 c10World).2.jobs = c10World.jobs :=
  c10_cancel_frame 7 4 c10World
    { id := 4, job_id := 2, status := TStatus.running } rfl rfl

/-- Claim C9: `allocate_resources` on a task with no assigned device (or
whose assigned device is missing from the store) returns `False` and
changes nothing — tasks, devices, allocations and the event log are all
untouched — and therefore one pass of the scheduling loop over such a
task leaves the state unchanged whatever the scheduling decision was. -/
theorem c9_no_assigned_device_frame (now tid : Nat) (st : SchedState) (task : SchedTask)
    (ht : st.tasks.find? (fun t => t.id == tid) = some task)
    (ha : task.assigned_device_id = none ∨
      ∃ did, task.assigned_device_id = some did ∧
        st.devices.find? (fun d => d.id == did) = none) :
    allocateResources now tid st = (false, st) ∧
    ∀ decision : Bool, schedulerStepTask now decision tid st = st := by
  have h1 : allocateResources now tid st = (false, st) := by
    unfold allocateResources
    rw [ht]
    rcases ha with hnone | ⟨did, hdid, hdev⟩
    · simp [hnone]
    · simp [hdid, hdev]
  refine ⟨h1, fun decision => ?_⟩
  unfold schedulerStepTask
  cases decision
  · rfl
  · simp [h1]

/-- Witness for C9 on a concrete state whose task 7 has no assigned
device. -/
theorem c9_witness :
    allocateResources 3 7 c9State = (false, c9State) ∧
    ∀ decision : Bool, schedulerStepTask 3 decision 7 c9State = c9State :=
  c9_no_assigned_device_frame 3 7 c9State
    { id := 7, status := TStatus.ready } rfl (Or.inl rfl)

/-- Claim C4 fails on the code: in `c4World` every task of job 1 is in a
terminal state after the result is processed (task 1 had already failed,
task 2 just completed), yet the job is not marked completed and no
`completed_at` is stamped, because the code requires the count of
COMPLETED siblings to equal the total count. -/
theorem c4_counterexample :
    (∀ t ∈ (processTaskResult 5 2 c4Result c4World).2.tasks,
      t.status = TStatus.completed ∨ t.status = TStatus.failed ∨
        t.status = TStatus.cancelled) ∧
    (processTaskResult 5 2 c4Result c4World).2.jobs.map Job.status = [JStatus.running] ∧
    (processTaskResult 5 2 c4Result c4World).2.jobs.map Job.completed_at = [none] := by
  decide

/-- Claim C5 fails on the code: in `c5State` the only device of the
required type is online and available but already actively allocated.
The claim's check (`specResourceCheck`, which counts only
non-conflicting devices) is false, yet the code's check passes, because
`_check_resource_availability` does not exclude allocated devices from
its count and only applies the allocation test to an assigned device. -/
theorem c5_counterexample :
    (checkResourceAvailability c5State c5Task).1 = true ∧
    specResourceCheck c5State c5Task = false := by
  decide

/-- Claim C8 fails on the code: processing a failing result for task 3
leaves job 1's `failed_tasks` at 0 even though its failed-sibling count
is now 1 (the code never recomputes `failed_tasks` in
`_process_task_result`), and the stored error message is the empty
string supplied by the result, not a non-empty message. -/
theorem c8_counterexample :
    (processTaskResult 9 3 c8Result c8World).2.tasks.map ETask.error_message = [some ""] ∧
    (processTaskResult 9 3 c8Result c8World).2.jobs.map Job.failed_tasks = [0] ∧
    ((processTaskResult 9 3 c8Result c8World).2.tasks.filter
      (fun t => t.status == TStatus.failed)).length = 1 := by
  decide

/-- The assigned-device tail of `_check_resource_availability`, projected
to its boolean, equals the corresponding conjunct of
`amendedResourceCheck`. -/
theorem assignedPartEq (st : SchedState) (o : Option Nat) :
    (match o with
      | none => (true, "Resources available")
      | some did =>
        match st.devices.find? (fun (d : Device) => d.id == did) with
        | none => (false, "Assigned device is not available")
        | some dev =>
          if !dev.is_online then (false, "Assigned device is not available")
          else if schedActiveKey st did then (false, "Device is already allocated")
          else (true, "Resources available")).1
    = (match o with
      | none => true
      | some did =>
        match st.devices.find? (fun (d : Device) => d.id == did) with
        | none => false
        | some dev => dev.is_online && !(schedActiveKey st did)) := by
  cases o with
  | none => rfl
  | some did =>
    cases hfd : st.devices.find? (fun (d : Device) => d.id == did) with
    | none => simp [hfd]
    | some dev =>
      cases hon : dev.is_online <;> cases hk : schedActiveKey st did <;>
        simp [hfd, hon, hk]

/-- Claim C5 amended: the code's resource-availability check holds
exactly when the template exists, the online+available device count of
the required types (allocated devices included) reaches the number of
required types whenever that list is non-empty, and additionally — not
alternatively — an assigned device, when present, exists, is online and
available, and is not actively allocated. -/
theorem c5_amended_resource_check (st : SchedState) (task : SchedTask) :
    (checkResourceAvailability st task).1 = amendedResourceCheck st task := by
  unfold checkResourceAvailability amendedResourceCheck
  cases htpl : task.task_template with
  | none => rfl
  | some tpl =>
    have hA := assignedPartEq st task.assigned_device_id
    dsimp only
    rcases Bool.eq_false_or_eq_true tpl.required_device_types.isEmpty with hE | hE
    · rw [hE, Bool.not_true, Bool.false_and, Bool.true_or, Bool.true_and,
        if_neg Bool.false_ne_true]
      exact hA
    · rw [hE, Bool.not_false, Bool.true_and, Bool.false_or]
      by_cases hC : onlineAvailCount st tpl.required_device_types <
          tpl.required_device_types.length
      · rw [decide_eq_true hC, if_pos rfl, decide_eq_false (Nat.not_le.mpr hC),
          Bool.false_and]
      · rw [decide_eq_false hC, if_neg Bool.false_ne_true,
          decide_eq_true (Nat.not_lt.mp hC), Bool.true_and]
        exact hA

/-- If some device in the selection has fewer free positions than the
requested count, the per-device loop fails (the `ResourceConflict`
path). -/
theorem allocDevices_eq_none {st : RMState} {c : Nat} {ds : List Device}
    (h : ∃ d ∈ ds, (availPositions st c d).length < c) :
    allocDevices st c ds = none := by
  induction ds with
  | nil => simp at h
  | cons d ds ih =>
    rcases h with ⟨e, he, hlt⟩
    unfold allocDevices
    rcases List.mem_cons.mp he with rfl | hmem
    · simp [hlt]
    · by_cases hd : (availPositions st c d).length < c
      · simp [hd]
      · rw [ih ⟨e, hmem, hlt⟩]
        simp [hd]

/-- Claim C6: a resource conflict is never surfaced as an error.  When no
non-conflicting online available device exists, or some selected device
has fewer free positions than the requested sample count,
`request_resources` returns the queued outcome `none` and appends the
request to the FIFO backlog; no exception reaches the caller (the
embedding is a total function). -/
theorem c6_resource_conflict_queued (devices : List Device) (r : ResourceRequest)
    (st : RMState)
    (h : nonConfDevices devices r st = [] ∨
      ∃ d ∈ (nonConfDevices devices r st).take r.required_device_types.length,
        (availPositions st r.sample_count d).length < r.sample_count) :
    requestResources devices r st =
      (none, { st with pending_requests := st.pending_requests ++ [r] }) := by
  have hfind : findAvailable devices r st = none := by
    unfold findAvailable
    rcases h with hnil | hshort
    · have hN : (nonConfDevices devices r st).isEmpty = true := by
        rw [hnil]; rfl
      by_cases hA : (availableDevices r.required_device_types devices).isEmpty
      · simp [hA]
      · simp [hA, hN]
    · have hD := allocDevices_eq_none hshort
      by_cases hA : (availableDevices r.required_device_types devices).isEmpty
      · simp [hA]
      · by_cases hN : (nonConfDevices devices r st).isEmpty
        · simp [hA, hN]
        · simp [hA, hN, hD]
  unfold requestResources
  rw [hfind]

/-- Witness for C6: with an empty device store every request is queued. -/
theorem c6_witness :
    requestResources [] demoReq initialRM =
      (none, { initialRM with
        pending_requests := initialRM.pending_requests ++ [demoReq] }) :=
  c6_resource_conflict_queued [] demoReq initialRM (Or.inl (by decide))

/-- Claim C4 amended: after a task result is processed, the owning job is
marked completed (status `completed`, `completed_at` stamped) exactly
when the number of its sibling tasks with status COMPLETED — counted
after the task update — equals the total number of its sibling tasks;
otherwise only `completed_tasks` and `progress_percentage` are updated
and the job's status and `completed_at` are unchanged.  Tasks in other
terminal states (failed, cancelled) do not count towards completion. -/
theorem c4_amended_job_completion (now tid : Nat) (result : TaskResult) (w : ExecWorld)
    (task : ETask) (job : Job)
    (ht : w.tasks.find? (fun t => t.id == tid) = some task)
    (hj : w.jobs.find? (fun j => j.id == task.job_id) = some job) :
    (siblingCompleted (setFirst (fun t => t.id == tid) (postTask now result task) w.tasks)
          job.id =
        siblingTotal (setFirst (fun t => t.id == tid) (postTask now result task) w.tasks)
          job.id →
      (processTaskResult now tid result w).2.jobs =
        setFirst (fun j => j.id == task.job_id)
          { job with
            completed_tasks := siblingCompleted
              (setFirst (fun t => t.id == tid) (postTask now result task) w.tasks) job.id,
            progress_percentage := progressPct
              (siblingCompleted
                (setFirst (fun t => t.id == tid) (postTask now result task) w.tasks) job.id)
              (siblingTotal
                (setFirst (fun t => t.id == tid) (postTask now result task) w.tasks) job.id),
            status := JStatus.completed,
            completed_at := some now } w.jobs) ∧
    (siblingCompleted (setFirst (fun t => t.id == tid) (postTask now result task) w.tasks)
          job.id ≠
        siblingTotal (setFirst (fun t => t.id == tid) (postTask now result task) w.tasks)
          job.id →
      (processTaskResult now tid result w).2.jobs =
        setFirst (fun j => j.id == task.job_id)
          { job with
            completed_tasks := siblingCompleted
              (setFirst (fun t => t.id == tid) (postTask now result task) w.tasks) job.id,
            progress_percentage := progressPct
              (siblingCompleted
                (setFirst (fun t => t.id == tid) (postTask now result task) w.tasks) job.id)
              (siblingTotal
                (setFirst (fun t => t.id == tid) (postTask now result task) w.tasks) job.id) }
          w.jobs) := by
  constructor
  · intro hEq
    simp only [processTaskResult, ht, hj]
    rw [if_pos (beq_iff_eq.mpr hEq)]
  · intro hNe
    simp only [processTaskResult, ht, hj]
    rw [if_neg (fun hb => hNe (beq_iff_eq.mp hb))]

/-- Witness for the amended C4: completing the only task of job 4 marks
the job completed with `completed_at` stamped. -/
theorem c4_amended_witness :
    (processTaskResult 5 9 c4Result c4GoodWorld).2.jobs =
      setFirst (fun j => j.id == 4)
        { id := 4, status := JStatus.completed, total_tasks := 1, completed_tasks := 1,
          progress_percentage := 100, completed_at := some 5 } c4GoodWorld.jobs :=
  (c4_amended_job_completion 5 9 c4Result c4GoodWorld
    { id := 9, job_id := 4, status := TStatus.running }
    { id := 4, status := JStatus.running, total_tasks := 1 } rfl rfl).1 (by decide)

/-- Claim C8 amended: on a result whose status is not "completed", the
processed task is marked failed with `completed_at` stamped and
`error_message` set to the result's error message (default
`"Task failed"`; it is stored verbatim, so it may be empty); the owning
job's `failed_tasks` counter is left unchanged — it is not recomputed —
while `completed_tasks` is recomputed by counting COMPLETED siblings and
`progress_percentage` is recomputed from that count. -/
theorem c8_amended_failure_processing (now tid : Nat) (result : TaskResult)
    (w : ExecWorld) (task : ETask) (job : Job)
    (hs : ¬ result.status = "completed")
    (ht : w.tasks.find? (fun t => t.id == tid) = some task)
    (hj : w.jobs.find? (fun j => j.id == task.job_id) = some job) :
    (processTaskResult now tid result w).2.tasks =
      setFirst (fun t => t.id == tid)
        { task with
          status := TStatus.failed,
          completed_at := some now,
          outputs := result.outputs.getD [],
          execution_time := result.execution_time,
          result_data := some result,
          error_message := some (result.error_message.getD "Task failed") } w.tasks ∧
    ∃ job2,
      (processTaskResult now tid result w).2.jobs =
        setFirst (fun j => j.id == task.job_id) job2 w.jobs ∧
      job2.failed_tasks = job.failed_tasks ∧
      job2.completed_tasks =
        siblingCompleted
          (setFirst (fun t => t.id == tid) (postTask now result task) w.tasks) job.id ∧
      job2.progress_percentage =
        progressPct
          (siblingCompleted
            (setFirst (fun t => t.id == tid) (postTask now result task) w.tasks) job.id)
          (siblingTotal
            (setFirst (fun t => t.id == tid) (postTask now result task) w.tasks) job.id) := by
  have hpost : postTask now result task =
      { task with
        status := TStatus.failed,
        completed_at := some now,
        outputs := result.outputs.getD [],
        execution_time := result.execution_time,
        result_data := some result,
        error_message := some (result.error_message.getD "Task failed") } := by
    unfold postTask
    rw [if_neg (fun hb => hs (beq_iff_eq.mp hb)), if_neg (fun hb => hs (beq_iff_eq.mp hb))]
  constructor
  · simp only [processTaskResult, ht, hj]
    rw [hpost]
  · simp only [processTaskResult, ht, hj]
    split
    · exact ⟨_, rfl, rfl, rfl, rfl⟩
    · exact ⟨_, rfl, rfl, rfl, rfl⟩

/-- Witness for the amended C8 on a concrete failing result. -/
theorem c8_amended_witness :
    (processTaskResult 9 3 c8Result c8World).2.tasks =
      setFirst (fun t => t.id == 3)
        { id := 3, job_id := 1, status := TStatus.failed, completed_at := some 9,
          outputs := [], execution_time := none, result_data := some c8Result,
          error_message := some "" } c8World.tasks ∧
    ∃ job2,
      (processTaskResult 9 3 c8Result c8World).2.jobs =
        setFirst (fun j => j.id == 1) job2 c8World.jobs ∧
      job2.failed_tasks = 0 ∧
      job2.completed_tasks =
        siblingCompleted
          (setFirst (fun t => t.id == 3)
            (postTask 9 c8Result { id := 3, job_id := 1, status := TStatus.running })
            c8World.tasks) 1 ∧
      job2.progress_percentage =
        progressPct
          (siblingCompleted
            (setFirst (fun t => t.id == 3)
              (postTask 9 c8Result { id := 3, job_id := 1, status := TStatus.running })
              c8World.tasks) 1)
          (siblingTotal
            (setFirst (fun t => t.id == 3)
              (postTask 9 c8Result { id := 3, job_id := 1, status := TStatus.running })
              c8World.tasks) 1) :=
  c8_amended_failure_processing 9 3 c8Result c8World
    { id := 3, job_id := 1, status := TStatus.running }
    { id := 1, status := JStatus.running, total_tasks := 1 }
    (by decide) rfl rfl

/-- Every entry produced by the per-device loop comes from a selected
device: its key is that device's id and its positions are that device's
available positions. -/
theorem allocDevices_mem {st : RMState} {c : Nat} {ds : List Device}
    {das : List (Nat × List String)} (h : allocDevices st c ds = some das) :
    ∀ x ∈ das, ∃ d ∈ ds, x.1 = d.id ∧ x.2 = availPositions st c d := by
  induction ds generalizing das with
  | nil =>
    rw [allocDevices] at h
    cases h
    simp
  | cons d ds ih =>
    rw [allocDevices] at h
    by_cases hd : (availPositions st c d).length < c
    · simp [hd] at h
    · rw [if_neg hd] at h
      cases hrec : allocDevices st c ds with
      | none => rw [hrec] at h; cases h
      | some rest =>
        rw [hrec] at h
        cases h
        intro x hx
        rcases List.mem_cons.mp hx with rfl | hx'
        · exact ⟨d, List.mem_cons_self d ds, rfl, rfl⟩
        · obtain ⟨e, he, h1, h2⟩ := ih hrec x hx'
          exact ⟨e, List.mem_cons_of_mem d he, h1, h2⟩

/-- Positions returned by `_get_available_sample_positions` are not in
the reservation table. -/
theorem availPositions_not_reserved {st : RMState} {c : Nat} {d : Device} {p : String}
    (h : p ∈ availPositions st c d) :
    p ∉ st.sample_position_availability := by
  unfold availPositions at h
  by_cases he : d.sample_positions.isEmpty
  · rw [if_pos he] at h; cases h
  · rw [if_neg he] at h
    have h' := List.mem_of_mem_filter (List.take_subset _ _ h)
    have h'' := List.of_mem_filter (List.take_subset _ _ h)
    simpa using h''

/-- Unfolded form of `activeKey st d = false`. -/
theorem activeKey_false_iff {st : RMState} {d : Nat} :
    activeKey st d = false ↔ ∀ b ∈ st.active_allocations, b.device_id ≠ d := by
  unfold activeKey
  rw [List.any_eq_false]
  simp

/-- An allocation returned by `_find_available_resources` is fresh: its
device is not actively allocated and none of its sample positions is
reserved. -/
theorem findAvailable_fresh {devices : List Device} {r : ResourceRequest} {st : RMState}
    {a : ResourceAllocation} (h : findAvailable devices r st = some a) :
    activeKey st a.device_id = false ∧
    ∀ p ∈ a.sample_positions, p ∉ st.sample_position_availability := by
  unfold findAvailable at h
  by_cases hA : (availableDevices r.required_device_types devices).isEmpty
  · simp [hA] at h
  · rw [if_neg (by simp [hA])] at h
    by_cases hN : (nonConfDevices devices r st).isEmpty
    · simp [hN] at h
    · rw [if_neg (by simp [hN])] at h
      cases hD : allocDevices st r.sample_count
          ((nonConfDevices devices r st).take r.required_device_types.length) with
      | none => rw [hD] at h; cases h
      | some das =>
        rw [hD] at h
        cases das with
        | nil => cases h
        | cons da rest =>
          cases h
          have hmem := allocDevices_mem hD
          constructor
          · obtain ⟨d, hd, h1, _⟩ := hmem da (List.mem_cons_self da rest)
            have hd' : d ∈ nonConfDevices devices r st := List.take_subset _ _ hd
            have hkey : activeKey st d.id = false := by
              have := List.of_mem_filter hd'
              simpa using this
            show activeKey st da.1 = false
            rw [h1]
            exact hkey
          · intro p hp
            simp only at hp
            obtain ⟨l, hl, hpl⟩ := List.mem_flatten.mp hp
            obtain ⟨x, hx, hxl⟩ := List.mem_map.mp hl
            obtain ⟨d, _, _, h2⟩ := hmem x hx
            subst hxl
            rw [h2] at hpl
            exact availPositions_not_reserved hpl

/-- Reserving positions only grows the reservation table. -/
theorem mem_foldl_spaInsert_left {l ps : List String} {p : String} (h : p ∈ l) :
    p ∈ ps.foldl spaInsert l := by
  induction ps generalizing l with
  | nil => exact h
  | cons q ps ih =>
    rw [List.foldl_cons]
    apply ih
    show p ∈ spaInsert l q
    unfold spaInsert
    by_cases hq : q ∈ l
    · rwa [if_pos hq]
    · rw [if_neg hq]; exact List.mem_append_left _ h

/-- Every position of a list is in the table after reserving that list. -/
theorem mem_foldl_spaInsert_right {l ps : List String} {p : String} (h : p ∈ ps) :
    p ∈ ps.foldl spaInsert l := by
  induction ps generalizing l with
  | nil => cases h
  | cons q ps ih =>
    rcases List.mem_cons.mp h with rfl | h'
    · rw [List.foldl_cons]
      apply mem_foldl_spaInsert_left
      show p ∈ spaInsert l p
      unfold spaInsert
      by_cases hq : p ∈ l
      · rwa [if_pos hq]
      · rw [if_neg hq]; exact List.mem_append_right _ (List.mem_singleton_self p)
    · exact ih h'

/-- Inserting an allocation with a fresh device key appends it. -/
theorem allocInsert_of_fresh {l : List ResourceAllocation} {a : ResourceAllocation}
    (h : l.any (fun b => b.device_id == a.device_id) = false) :
    allocInsert l a = l ++ [a] := by
  unfold allocInsert
  rw [h]
  rfl

/-- The inserted allocation is always present after insertion. -/
theorem allocInsert_mem_self (l : List ResourceAllocation) (a : ResourceAllocation) :
    a ∈ allocInsert l a := by
  unfold allocInsert
  by_cases h : l.any (fun b => b.device_id == a.device_id) = true
  · rw [if_pos h]
    obtain ⟨b, hb, hbeq⟩ := List.any_eq_true.mp h
    exact List.mem_map.mpr ⟨b, hb, by rw [if_pos hbeq]⟩
  · rw [if_neg h]
    exact List.mem_append_right _ (List.mem_singleton_self a)

/-- `AllocDisj` is symmetric. -/
theorem allocDisj_symm : Symmetric AllocDisj :=
  fun _ _ h => ⟨h.1.symm, h.2.symm⟩

/-- `_allocate_resources` preserves the invariant when the allocation is
fresh (which `_find_available_resources` guarantees). -/
theorem allocateRes_inv {st : RMState} {a : ResourceAllocation} (hInv : RMInv st)
    (hkey : activeKey st a.device_id = false)
    (hpos : ∀ p ∈ a.sample_positions, p ∉ st.sample_position_availability) :
    RMInv (allocateRes a st) := by
  obtain ⟨hPW, hSub⟩ := hInv
  have happ : allocInsert st.active_allocations a = st.active_allocations ++ [a] :=
    allocInsert_of_fresh hkey
  constructor
  · show (allocInsert st.active_allocations a).Pairwise AllocDisj
    rw [happ, List.pairwise_append]
    refine ⟨hPW, List.pairwise_singleton _ _, ?_⟩
    intro b hb c hc
    rw [List.mem_singleton.mp hc]
    constructor
    · exact (activeKey_false_iff.mp hkey) b hb
    · intro p hpb hpa
      exact hpos p hpa (hSub b hb p hpb)
  · intro b hb p hp
    show p ∈ a.sample_positions.foldl spaInsert st.sample_position_availability
    have hb' : b ∈ st.active_allocations ++ [a] := by
      rw [← happ]; exact hb
    rcases List.mem_append.mp hb' with hbl | hba
    · exact mem_foldl_spaInsert_left (hSub b hbl p hp)
    · rw [List.mem_singleton.mp hba] at hp
      exact mem_foldl_spaInsert_right hp

/-- Freeing an allocation found in the table preserves the invariant. -/
theorem freed_inv {st : RMState} {d : Nat} {a : ResourceAllocation} (hInv : RMInv st)
    (hfind : st.active_allocations.find? (fun b => b.device_id == d) = some a) :
    RMInv (freedState st d a) := by
  obtain ⟨hPW, hSub⟩ := hInv
  have ha_mem : a ∈ st.active_allocations := List.mem_of_find?_eq_some hfind
  have ha_key : a.device_id = d := by
    have := List.find?_some hfind
    simpa using this
  constructor
  · exact hPW.sublist (List.filter_sublist _)
  · intro b hb p hp
    have hbl := List.mem_of_mem_filter hb
    have hbd : b.device_id ≠ d := by
      have := List.of_mem_filter hb
      simpa using this
    show p ∈ st.sample_position_availability.filter
      (fun q => !(decide (q ∈ a.sample_positions)))
    rw [List.mem_filter]
    refine ⟨hSub b hbl p hp, ?_⟩
    have hba : b ≠ a := fun he => hbd (he ▸ ha_key)
    have hdisj : AllocDisj b a :=
      (hPW.forall allocDisj_symm) hbl ha_mem hba
    simpa using hdisj.2 hp

/-- The backlog-reprocessing loop preserves the invariant. -/
theorem processGo_inv {devices : List Device} {reqs : List ResourceRequest}
    {st : RMState} {rem : List ResourceRequest} (hInv : RMInv st) :
    RMInv (processGo devices reqs st rem) := by
  induction reqs generalizing st rem with
  | nil =>
    rw [processGo]
    exact hInv
  | cons r rest ih =>
    rw [processGo]
    cases hF : findAvailable devices r st with
    | none => exact ih hInv
    | some a =>
      obtain ⟨hkey, hpos⟩ := findAvailable_fresh hF
      exact ih (allocateRes_inv hInv hkey hpos)

/-- `request_resources` preserves the invariant. -/
theorem requestResources_inv {devices : List Device} {r : ResourceRequest} {st : RMState}
    (h : RMInv st) : RMInv (requestResources devices r st).2 := by
  unfold requestResources
  cases hF : findAvailable devices r st with
  | some a =>
    obtain ⟨hkey, hpos⟩ := findAvailable_fresh hF
    exact allocateRes_inv h hkey hpos
  | none => exact h

/-- `release_resources` preserves the invariant. -/
theorem releaseResources_inv {devices : List Device} {d : Nat} {st : RMState}
    (h : RMInv st) : RMInv (releaseResources devices d st) := by
  unfold releaseResources
  cases hF : st.active_allocations.find? (fun b => b.device_id == d) with
  | none => exact h
  | some a => exact processGo_inv (freed_inv h hF)

/-- A fresh `ResourceManager` satisfies the invariant. -/
theorem rminv_init : RMInv initialRM :=
  ⟨List.Pairwise.nil, fun a ha => absurd ha (List.not_mem_nil a)⟩

/-- Claim C1: at every reachable state of the `ResourceManager`, active
allocations are mutually exclusive — no two reference the same device id
and no two share a sample-position name; the proof goes by showing every
operation (`request_resources`, `release_resources`, backlog
reprocessing) preserves this invariant. -/
theorem c1_mutual_exclusion {st : RMState} (h : RMReachable st) :
    st.active_allocations.Pairwise AllocDisj := by
  have hInv : RMInv st := by
    induction h with
    | init => exact rminv_init
    | request devices r _ ih => exact requestResources_inv ih
    | release devices d _ ih => exact releaseResources_inv ih
    | reprocess devices _ ih => exact processGo_inv ih
  exact hInv.1

/-- Witness for C1 at a concrete reachable state (one allocation made
from the initial state). -/
theorem c1_witness :
    ((requestResources demoDevices demoReq initialRM).2).active_allocations.Pairwise
      AllocDisj :=
  c1_mutual_exclusion (RMReachable.request demoDevices demoReq RMReachable.init)

/-- The backlog left by the reprocessing loop is a subsequence of the
already-kept requests followed by the requests still to be tried:
unsatisfiable requests remain queued in their original order. -/
theorem processGo_pending_sublist (devices : List Device) (reqs : List ResourceRequest)
    (st : RMState) (rem : List ResourceRequest) :
    (processGo devices reqs st rem).pending_requests.Sublist (rem ++ reqs) := by
  induction reqs generalizing st rem with
  | nil =>
    rw [processGo]
    simp
  | cons r rest ih =>
    rw [processGo]
    cases hF : findAvailable devices r st with
    | some a =>
      exact (ih (allocateRes a st) rem).trans
        (List.Sublist.append_left (List.sublist_cons_self r rest) rem)
    | none =>
      have h := ih st (rem ++ [r])
      simpa [List.append_assoc] using h

/-- Allocations active when backlog reprocessing starts stay active:
later fulfilled requests insert under fresh device keys. -/
theorem processGo_active_mono {devices : List Device} {reqs : List ResourceRequest}
    {st : RMState} {rem : List ResourceRequest} {b : ResourceAllocation}
    (hb : b ∈ st.active_allocations) :
    b ∈ (processGo devices reqs st rem).active_allocations := by
  induction reqs generalizing st rem with
  | nil =>
    rw [processGo]
    exact hb
  | cons r rest ih =>
    rw [processGo]
    cases hF : findAvailable devices r st with
    | none => exact ih hb
    | some a =>
      apply ih
      show b ∈ allocInsert st.active_allocations a
      rw [allocInsert_of_fresh (findAvailable_fresh hF).1]
      exact List.mem_append_left _ hb

/-- Claim C2: releasing a device with an active allocation removes the
allocation, frees its reserved positions and synchronously reprocesses
the backlog in FIFO order (conjunct 1); unsatisfied requests remain
queued in their original order (conjunct 2); and a satisfiable head
entry of a non-empty backlog is allocated before the call returns, the
remaining backlog being a subsequence of the tail (conjunct 3). -/
theorem c2_release_reprocesses_backlog (devices : List Device) (d : Nat) (st : RMState)
    (a : ResourceAllocation)
    (hfind : st.active_allocations.find? (fun b => b.device_id == d) = some a) :
    releaseResources devices d st = processPending devices (freedState st d a) ∧
    (releaseResources devices d st).pending_requests.Sublist st.pending_requests ∧
    ∀ r rest, st.pending_requests = r :: rest →
      ∀ b, findAvailable devices r (freedState st d a) = some b →
        b ∈ (releaseResources devices d st).active_allocations ∧
        (releaseResources devices d st).pending_requests.Sublist rest := by
  have h1 : releaseResources devices d st = processPending devices (freedState st d a) := by
    unfold releaseResources
    rw [hfind]
  refine ⟨h1, ?_, ?_⟩
  · rw [h1]
    unfold processPending
    have h := processGo_pending_sublist devices (freedState st d a).pending_requests
      (freedState st d a) []
    simpa using h
  · intro r rest hpend b hb
    have h2 : releaseResources devices d st =
        processGo devices rest (allocateRes b (freedState st d a)) [] := by
      rw [h1]
      unfold processPending
      rw [show (freedState st d a).pending_requests = st.pending_requests from rfl, hpend,
        processGo, hb]
    constructor
    · rw [h2]
      apply processGo_active_mono
      show b ∈ allocInsert (freedState st d a).active_allocations b
      exact allocInsert_mem_self _ _
    · rw [h2]
      have h := processGo_pending_sublist devices rest (allocateRes b (freedState st d a)) []
      simpa using h

/-- Witness for C2: releasing device 1 of `c2State` frees `p1` and the
queued request of task 11 is allocated before the call returns. -/
theorem c2_witness :
    releaseResources demoDevices 1 c2State =
      processPending demoDevices
        (freedState c2State 1 { device_id := 1, task_id := 10, sample_positions := ["p1"] }) ∧
    (releaseResources demoDevices 1 c2State).pending_requests.Sublist
      c2State.pending_requests ∧
    ({ device_id := 1, task_id := 11, sample_positions := ["p1"] } : ResourceAllocation) ∈
      (releaseResources demoDevices 1 c2State).active_allocations ∧
    (releaseResources demoDevices 1 c2State).pending_requests.Sublist [] := by
  obtain ⟨h1, h2, h3⟩ := c2_release_reprocesses_backlog demoDevices 1 c2State
    { device_id := 1, task_id := 10, sample_positions := ["p1"] } rfl
  have h4 := h3 { task_id := 11, required_device_types := [1], sample_count := 1 } [] rfl
    { device_id := 1, task_id := 11, sample_positions := ["p1"] } (by decide)
  exact ⟨h1, h2, h4.1, h4.2⟩
